import Mathlib

-- Verification development for the rust socket.io / engine.io client.
-- The packet handling, the websocket probe upgrade, the acknowledgement
-- tracking and the guard logic of the source are embedded shallowly as
-- executable Lean functions; machine integers that cannot overflow in the
-- modelled ranges are embedded as Nat / Int, asynchronous effects are made
-- explicit (sent frames, callback invocations, issued HTTP requests), and
-- fallible or panicking code returns Option / Except.

set_option maxHeartbeats 1000000

namespace SocketIOVerif

/-- Error kinds of the library (`error.rs` variants reached by the embedded
functions; names follow the source). -/
inductive SError where
  | invalidUrl (address : String)
  | illegalNamespace (nsp : String)
  | httpError (status : Nat)
  | handshakeError (response : String)
  | illegalWebsocketUpgrade
  | invalidPacket
  | incompletePacket
  | actionBeforeOpen
  | illegalActionAfterOpen
  deriving Repr, DecidableEq

/-- Engine.IO packet kinds (`engineio` `PacketId`), wire digits `0`..`6`. -/
inductive EPacketId where
  | Open
  | Close
  | Ping
  | Pong
  | Message
  | Upgrade
  | Noop
  deriving Repr, DecidableEq

/-- The ASCII digit tagging each Engine.IO packet kind on the wire
(`'0'` = 48 .. `'6'` = 54). -/
def EPacketId.toByte : EPacketId → Nat
  | .Open => 48
  | .Close => 49
  | .Ping => 50
  | .Pong => 51
  | .Message => 52
  | .Upgrade => 53
  | .Noop => 54

/-- Bytes of an ASCII string. -/
def asciiBytes (s : String) : List Nat := s.data.map Char.toNat

/-- Modelled from the spec: the Engine.IO text encoding of a packet,
`<kind-digit><utf8 body>` (spec section 4.1); the `From<Packet> for Bytes`
implementation lives in `engineio/src/packet.rs`, which is not among the
given sources. -/
def encodePacket (id : EPacketId) (body : List Nat) : List Nat :=
  id.toByte :: body

/-- Result of the probe upgrade: the frames written to the websocket sender
in order, and the returned `Result`. -/
structure UpgradeOutcome where
  sent : List (List Nat)
  result : Except SError Unit
  deriving Repr

/-- `AsyncWebsocketGeneralTransport::upgrade`
(`engineio/src/async_transports/mod.rs`): sends a PING packet with body
`"probe"` as a text frame, awaits one inbound frame (`inbound = none` models
the stream ending with no frame, in which case the source returns
`Error::IllegalWebsocketUpgrade()`), compares the frame's raw payload with
the encoding of a PONG packet with body `"probe"` (returning
`Error::InvalidPacket()` on mismatch), and finally sends an UPGRADE packet
with empty body. -/
def upgrade (inbound : Option (List Nat)) : UpgradeOutcome :=
  let probePing := encodePacket .Ping (asciiBytes "probe")
  match inbound with
  | none => ⟨[probePing], .error .illegalWebsocketUpgrade⟩
  | some msgData =>
    if msgData ≠ encodePacket .Pong (asciiBytes "probe") then
      ⟨[probePing], .error .invalidPacket⟩
    else
      ⟨[probePing, encodePacket .Upgrade []], .ok ()⟩

/-- User-visible payload (`Payload`): the source names the variants
`Payload::String` and `Payload::Binary`. -/
inductive SPayload where
  | text (s : String)
  | binary (b : List Nat)
  deriving Repr, DecidableEq

/-- An outstanding acknowledgement (`Ack` in
`socketio/src/asynchronous/client/client.rs`): correlation id (`i32` in the
source, drawn from `[0, 999)` so embedded as `Int`), the instant the ack was
started and its timeout (both in abstract time units), and the user callback
(opaque token). -/
structure SAck where
  id : Int
  timeStarted : Nat
  timeout : Nat
  callback : Nat
  deriving Repr, DecidableEq

/-- `thread_rng().gen_range(0..999)`: a deterministic model of the draw, a
uniform source `r` reduced into the half-open range `[0, 999)` — 999 itself
is excluded, `0..999` being half open in the source. -/
def genRange999 (r : Nat) : Int := ((r % 999 : Nat) : Int)

/-- Effect of `Client::emit_with_ack` on the outstanding-acks list: the new
ack `Ack { id: gen_range(0..999), time_started: now, timeout, callback }` is
pushed unconditionally — the source performs no collision check against ids
already outstanding and never retries the draw. -/
def emitWithAck (r now timeout cb : Nat) (acks : List SAck) : List SAck :=
  acks ++ [⟨genRange999 r, now, timeout, cb⟩]

/-- Model of a `serde_json::Value` (external collaborator; JSON numbers are
modelled as integers, which is all the theorems below need). -/
inductive JValue where
  | jnull
  | jbool (b : Bool)
  | jnum (n : Int)
  | jstr (s : String)
  | jarr (elems : List JValue)
  | jobj (fields : List (String × JValue))
  deriving Repr

/-- Escaping of one character in a serialized JSON string (the cases used by
the payloads appearing here). -/
def escapeJsonChar (c : Char) : String :=
  if c = '"' then "\\\""
  else if c = '\\' then "\\\\"
  else if c = '\n' then "\\n"
  else if c = '\t' then "\\t"
  else if c = '\r' then "\\r"
  else String.singleton c

/-- Escaping of a serialized JSON string body. -/
def escapeJson (s : String) : String :=
  String.join (s.data.map escapeJsonChar)

mutual

/-- Compact serialization of a JSON value, modelling
`serde_json::Value::to_string()`. -/
def JValue.serialize : JValue → String
  | .jnull => "null"
  | .jbool true => "true"
  | .jbool false => "false"
  | .jnum n => toString n
  | .jstr s => "\"" ++ escapeJson s ++ "\""
  | .jarr elems => "[" ++ JValue.serializeList elems ++ "]"
  | .jobj fields => "\x7b" ++ JValue.serializeFields fields ++ "\x7d"

/-- Comma-separated serialization of the elements of a JSON array. -/
def JValue.serializeList : List JValue → String
  | [] => ""
  | [v] => v.serialize
  | v :: rest => v.serialize ++ "," ++ JValue.serializeList rest

/-- Comma-separated serialization of the fields of a JSON object. -/
def JValue.serializeFields : List (String × JValue) → String
  | [] => ""
  | [(k, v)] => "\"" ++ escapeJson k ++ "\":" ++ v.serialize
  | (k, v) :: rest =>
    "\"" ++ escapeJson k ++ "\":" ++ v.serialize ++ "," ++ JValue.serializeFields rest

end

/-- User-visible event labels (`Event`): `Message`, `Error`, `Connect`,
`Close`, `Custom(name)`, per the spec's event taxonomy. -/
inductive SEvent where
  | message
  | error
  | connect
  | close
  | custom (name : String)
  deriving Repr, DecidableEq

/-- Modelled from the spec: conversion of an event-name string into an
`Event` (`event.rs` is not among the given sources); the reserved names of
the spec's taxonomy map to their labels and any other string to `Custom`.
Only the `"message"` case is relied on by the theorems below. -/
def SEvent.fromString (s : String) : SEvent :=
  if s = "message" then .message
  else if s = "error" then .error
  else if s = "connect" then .connect
  else if s = "close" then .close
  else .custom s

/-- Socket.IO packet kinds (`PacketId` of the socketio crate). -/
inductive SPacketId where
  | connect
  | disconnect
  | event
  | ack
  | connectError
  | binaryEvent
  | binaryAck
  deriving Repr, DecidableEq

/-- A Socket.IO packet (`Packet` of the socketio crate). -/
structure SPacket where
  packetType : SPacketId
  nsp : String
  id : Option Int
  data : Option String
  attachmentCount : Nat
  attachments : Option (List (List Nat))
  deriving Repr, DecidableEq

/-- The client state inbound dispatch depends on: its namespace, the `on`
callback table (modelling `HashMap<Event, Callback>` as an association list
of opaque callback tokens) and the outstanding acks. -/
structure SClient where
  nsp : String
  onTable : List (SEvent × Nat)
  outstandingAcks : List SAck
  deriving Repr, DecidableEq

/-- Association-list lookup modelling `HashMap::get_mut` on the `on` table. -/
def lookupOn : List (SEvent × Nat) → SEvent → Option Nat
  | [], _ => none
  | (e, cb) :: rest, ev => if e = ev then some cb else lookupOn rest ev

/-- A recorded invocation of a registered user callback. -/
structure Invocation where
  event : SEvent
  payload : SPayload
  deriving Repr, DecidableEq

/-- `Client::callback`: looks the event up in the `on` table and invokes the
registered callback if and only if one is present — the source has no
fallback to any other event's callback. The returned list records the
invocation. -/
def SClient.callbackInvocations (c : SClient) (e : SEvent) (p : SPayload) :
    List Invocation :=
  match lookupOn c.onTable e with
  | some _ => [⟨e, p⟩]
  | none => []

/-- The payloads `Client::handle_ack` passes to a matching, not yet timed
out ack's callback: `Payload::String(data)` when `data` is present, then
`Payload::Binary(attachments[0])` when the attachments are present and
non-empty (`attachments.get(0)`). -/
def ackCallbackPayloads (pkt : SPacket) : List SPayload :=
  (match pkt.data with
   | some d => [SPayload.text d]
   | none => []) ++
  (match pkt.attachments with
   | some atts =>
     match atts.get? 0 with
     | some b => [SPayload.binary b]
     | none => []
   | none => [])

/-- The indices `to_be_removed` collected by the `for` loop of
`Client::handle_ack`, counting from `i`. -/
def ackMatchIndices (pid : Int) (i : Nat) : List SAck → List Nat
  | [] => []
  | a :: rest =>
    if a.id = pid then i :: ackMatchIndices pid (i + 1) rest
    else ackMatchIndices pid (i + 1) rest

/-- The callback invocations performed by the `for` loop of
`Client::handle_ack` at time `now`: every ack with the matching id whose
elapsed time `now - time_started` is still below its timeout receives the
packet's payloads (the `else` branch of the source does nothing with timed
out acks). -/
def ackLoopInvocations (now : Nat) (pid : Int) (pkt : SPacket) :
    List SAck → List SPayload
  | [] => []
  | a :: rest =>
    (if a.id = pid then
       if now - a.timeStarted < a.timeout then ackCallbackPayloads pkt else []
     else []) ++ ackLoopInvocations now pid pkt rest

/-- `Client::handle_ack`: when the packet carries an id, walk the
outstanding acks, invoke the callbacks of the matching not yet timed out
entries, then remove the collected indices one after the other
(`Vec::remove` applied to the shrinking vector, embedded with
`List.eraseIdx`). Returns the new outstanding list and the payloads handed
to ack callbacks. -/
def handleAck (now : Nat) (pkt : SPacket) (acks : List SAck) :
    List SAck × List SPayload :=
  match pkt.id with
  | none => (acks, [])
  | some pid =>
    let invs := ackLoopInvocations now pid pkt acks
    let newAcks := (ackMatchIndices pid 0 acks).foldl (fun l i => l.eraseIdx i) acks
    (newAcks, invs)

/-- `String::replace('"', "")`: removes every double-quote character. -/
def stripQuotes (s : String) : String := ⟨s.data.filter (fun c => c ≠ '"')⟩

/-- `Client::handle_binary_event`: the event is the de-quoted `data` string
(or `Message` when `data` is absent); when attachment 0 exists, the
callback registered for that event is invoked with it as a binary payload. -/
def handleBinaryEvent (c : SClient) (pkt : SPacket) : List Invocation :=
  let ev : SEvent :=
    match pkt.data with
    | some s => SEvent.fromString (stripQuotes s)
    | none => .message
  match pkt.attachments with
  | some atts =>
    match atts.get? 0 with
    | some b => c.callbackInvocations ev (.binary b)
    | none => []
  | none => []

/-- `Client::handle_event`, applied to the result of parsing `data` with
`serde_json::from_str` (`dataParsed = none` models an absent `data` field
as well as a parse failure; a non-array value is likewise skipped). Returns
`none` exactly on the source's panic: for an empty array,
`contents.get(1).unwrap_or_else(|| contents.get(0).unwrap())` unwraps a
`None`. -/
def handleEvent (c : SClient) (dataParsed : Option JValue) :
    Option (List Invocation) :=
  match dataParsed with
  | some (.jarr contents) =>
    let ev : SEvent :=
      if contents.length > 1 then
        SEvent.fromString
          (match contents.get? 0 with
           | some (JValue.jstr s) => s
           | some _ => "message"
           | none => "message")
      else .message
    match contents.get? 1 with
    | some v => some (c.callbackInvocations ev (.text v.serialize))
    | none =>
      match contents.get? 0 with
      | some v => some (c.callbackInvocations ev (.text v.serialize))
      | none => none
  | _ => some []

/-- Outcome of dispatching one inbound Socket.IO packet: the `on`-table
callback invocations, the payloads passed to outstanding-ack callbacks, and
the updated outstanding-acks list. Every reachable path of
`handle_socketio_packet` returns `Ok(())` — its `Err` branch requires
`handle_ack` to fail, which it never does — so no result field is
needed; `none` models the panic of `handle_event` on an empty JSON array. -/
structure DispatchOutcome where
  invocations : List Invocation
  ackInvocations : List SPayload
  outstandingAcks : List SAck
  deriving Repr, DecidableEq

/-- `Client::handle_socketio_packet` at time `now`, with `parse` standing
for `serde_json::from_str` (external JSON parsing): a packet whose `nsp`
differs from the client's is skipped outright; otherwise dispatch follows
the packet type as in the source, the `CONNECT_ERROR` arm firing `Error`
with `"Received an ConnectError frame: "` followed by the data body or, in
its absence, the literal `"\"No error message provided\""`. -/
def handleSocketioPacket (parse : String → Option JValue) (now : Nat)
    (c : SClient) (pkt : SPacket) : Option DispatchOutcome :=
  if pkt.nsp = c.nsp then
    match pkt.packetType with
    | .ack | .binaryAck =>
      let r := handleAck now pkt c.outstandingAcks
      some ⟨[], r.2, r.1⟩
    | .binaryEvent => some ⟨handleBinaryEvent c pkt, [], c.outstandingAcks⟩
    | .connect =>
      some ⟨c.callbackInvocations .connect (.text ""), [], c.outstandingAcks⟩
    | .disconnect =>
      some ⟨c.callbackInvocations .close (.text ""), [], c.outstandingAcks⟩
    | .connectError =>
      some ⟨c.callbackInvocations .error
        (.text ("Received an ConnectError frame: "
          ++ pkt.data.getD "\"No error message provided\"")), [], c.outstandingAcks⟩
    | .event =>
      (handleEvent c (pkt.data.bind parse)).map
        (fun invs => ⟨invs, [], c.outstandingAcks⟩)
  else some ⟨[], [], c.outstandingAcks⟩

/-- The namespace filter of `<Client as Stream>::poll_next`: the loop keeps
polling inbound packets and yields the first whose `nsp` equals the
client's, skipping the others without handling them. -/
def pollNextYield (c : SClient) : List SPacket → Option SPacket
  | [] => none
  | p :: rest => if p.nsp = c.nsp then some p else pollNextYield c rest

/-- Guard of `EngineSocket::emit` (`src/engineio/socket.rs`): an emit on a
socket that is not connected fails with `ActionBeforeOpen`; otherwise the
packet is delegated to the transport client. -/
def engineSocketEmitGuard (connected : Bool) : Except SError Unit :=
  if !connected then .error .actionBeforeOpen else .ok ()

/-- Guard of `TransportClient::emit` (`src/transport.rs`): the source reads
`if self.connected.load(..) { return Err(Error::ActionBeforeOpen); }` — the
error is returned when the flag IS set, and the emit proceeds when it is
not. -/
def transportClientEmitGuard (connected : Bool) : Except SError Unit :=
  if connected then .error .actionBeforeOpen else .ok ()

/-- Callback slots of `EngineSocket` / its `TransportClient`
(`src/engineio/socket.rs`), with callbacks as opaque tokens. -/
structure EngineSocketState where
  connected : Bool
  onOpen : Option Nat
  onClose : Option Nat
  onPacket : Option Nat
  onData : Option Nat
  onError : Option Nat
  deriving Repr, DecidableEq

/-- `EngineSocket::on_open`: rejected with `IllegalActionAfterOpen` once
connected, otherwise stores the callback. -/
def regOnOpen (s : EngineSocketState) (cb : Nat) : Except SError EngineSocketState :=
  if s.connected then .error .illegalActionAfterOpen
  else .ok { s with onOpen := some cb }

/-- `EngineSocket::on_close`: same guard as `on_open`. -/
def regOnClose (s : EngineSocketState) (cb : Nat) : Except SError EngineSocketState :=
  if s.connected then .error .illegalActionAfterOpen
  else .ok { s with onClose := some cb }

/-- `EngineSocket::on_packet`: same guard as `on_open`. -/
def regOnPacket (s : EngineSocketState) (cb : Nat) : Except SError EngineSocketState :=
  if s.connected then .error .illegalActionAfterOpen
  else .ok { s with onPacket := some cb }

/-- `EngineSocket::on_data`: same guard as `on_open`. -/
def regOnData (s : EngineSocketState) (cb : Nat) : Except SError EngineSocketState :=
  if s.connected then .error .illegalActionAfterOpen
  else .ok { s with onData := some cb }

/-- `EngineSocket::on_error`: same guard as `on_open`. -/
def regOnError (s : EngineSocketState) (cb : Nat) : Except SError EngineSocketState :=
  if s.connected then .error .illegalActionAfterOpen
  else .ok { s with onError := some cb }

/-- Modelled from the spec: event `on`-registration of the socket.io layer
(`Socket::on` delegates to `socketio::transport::TransportClient::on`,
which is not among the given sources): registration is disallowed after
`connect()` and fails with `IllegalActionAfterOpen`; before, the callback
is recorded. -/
def socketOnRegister (connected : Bool) (table : List (SEvent × Nat))
    (e : SEvent) (cb : Nat) : Except SError (List (SEvent × Nat)) :=
  if connected then .error .illegalActionAfterOpen
  else .ok ((e, cb) :: table)

/-- The builder state `SocketBuilder::set_namespace` acts on. -/
structure BuilderState where
  nsp : String
  deriving Repr, DecidableEq

/-- `str::starts_with('/')` with a character pattern: true exactly when the
string's first character is `/`. -/
def startsWithSlash (s : String) : Bool :=
  match s.data with
  | [] => false
  | c :: _ => c = '/'

/-- `SocketBuilder::set_namespace` (`src/lib.rs`): fails with
`IllegalNamespace` when the namespace does not start with `'/'` (nothing is
mutated on that path), otherwise stores the namespace and succeeds. -/
def setNamespace (b : BuilderState) (nsp : String) : Except SError BuilderState :=
  if !startsWithSlash nsp then .error (.illegalNamespace nsp)
  else .ok { b with nsp := nsp }

/-- The Engine.IO handshake data (`HandshakeData` in `src/transport.rs`). -/
structure HandshakeData where
  sid : String
  upgrades : List String
  pingInterval : Int
  pingTimeout : Int
  deriving Repr, DecidableEq

/-- The fields of `TransportClient` (`src/transport.rs`) that `open`
touches. The `connection_data` field is `Option<HandshakeData>` and is the
inferred target of `serde_json::from_str` in `open`. -/
structure TransportClientState where
  connected : Bool
  address : Option String
  connectionData : Option HandshakeData
  deriving Repr, DecidableEq

/-- Outcome of `TransportClient::open`: the number of HTTP GET requests
issued, whether the registered `on_open` callback would fire, the returned
result, and the state afterwards. -/
structure OpenOutcome where
  httpRequests : Nat
  onOpenFired : Bool
  result : Except SError Unit
  state : TransportClientState
  deriving Repr

/-- `TransportClient::open` (`src/transport.rs`): returns `Ok(())`
immediately when the `connected` flag is set, issuing no request and
touching no state; otherwise it parses the URL (`urlOk` models `Url::parse`
succeeding), stores the address, issues the handshake GET (whose body is
`response`), and on a successful `serde_json` parse of `response[1..]`
(modelled by `parsed`, whose outer `none` is the parse failure yielding
`HandshakeError(response)`) stores the parsed value and fires `on_open`. -/
def transportClientOpen (s : TransportClientState) (address : String)
    (urlOk : Bool) (response : String)
    (parsed : Option (Option HandshakeData)) : OpenOutcome :=
  if s.connected then ⟨0, false, .ok (), s⟩
  else if urlOk then
    let s1 := { s with address := some address }
    match parsed with
    | some hd => ⟨1, true, .ok (), { s1 with connectionData := hd }⟩
    | none => ⟨1, false, .error (.handshakeError response), s1⟩
  else ⟨0, false, .error (.invalidUrl address), s⟩

-- Helper lemmas about the handle_ack loops.

/-- A list without the sought id contributes no index to `to_be_removed`. -/
lemma ackMatchIndices_eq_nil (pid : Int) :
    ∀ (l : List SAck) (i : Nat), (∀ b ∈ l, b.id ≠ pid) →
      ackMatchIndices pid i l = [] := by
  intro l
  induction l with
  | nil => intro i _; rfl
  | cons b rest ih =>
    intro i h
    have hb : b.id ≠ pid := h b (List.mem_cons_self b rest)
    simp only [ackMatchIndices, if_neg hb]
    exact ih (i + 1) (fun x hx => h x (List.mem_cons_of_mem b hx))

/-- A list without the sought id triggers no ack-callback invocation. -/
lemma ackLoopInvocations_eq_nil (now : Nat) (pid : Int) (pkt : SPacket) :
    ∀ (l : List SAck), (∀ b ∈ l, b.id ≠ pid) →
      ackLoopInvocations now pid pkt l = [] := by
  intro l
  induction l with
  | nil => intro _; rfl
  | cons b rest ih =>
    intro h
    have hb : b.id ≠ pid := h b (List.mem_cons_self b rest)
    simp only [ackLoopInvocations, if_neg hb, List.nil_append]
    exact ih (fun x hx => h x (List.mem_cons_of_mem b hx))

/-- With a unique match, `to_be_removed` is the single index of the match. -/
lemma ackMatchIndices_unique (pid : Int) (post : List SAck) (a : SAck)
    (ha : a.id = pid) (hpost : ∀ b ∈ post, b.id ≠ pid) :
    ∀ (pre : List SAck) (i : Nat), (∀ b ∈ pre, b.id ≠ pid) →
      ackMatchIndices pid i (pre ++ a :: post) = [i + pre.length] := by
  intro pre
  induction pre with
  | nil =>
    intro i _
    simp only [List.nil_append, ackMatchIndices, if_pos ha]
    rw [ackMatchIndices_eq_nil pid post (i + 1) hpost]
    simp
  | cons p rest ih =>
    intro i h
    have hp : p.id ≠ pid := h p (List.mem_cons_self p rest)
    simp only [List.cons_append, ackMatchIndices, if_neg hp, List.append_eq]
    rw [ih (i + 1) (fun x hx => h x (List.mem_cons_of_mem p hx))]
    simp only [List.length_cons]
    congr 1
    omega

/-- With a unique match, the loop invokes only the matching ack's callback,
and only when that ack has not yet timed out. -/
lemma ackLoopInvocations_unique (now : Nat) (pid : Int) (pkt : SPacket)
    (post : List SAck) (a : SAck)
    (ha : a.id = pid) (hpost : ∀ b ∈ post, b.id ≠ pid) :
    ∀ (pre : List SAck), (∀ b ∈ pre, b.id ≠ pid) →
      ackLoopInvocations now pid pkt (pre ++ a :: post)
        = if now - a.timeStarted < a.timeout then ackCallbackPayloads pkt
          else [] := by
  intro pre
  induction pre with
  | nil =>
    intro _
    simp only [List.nil_append, ackLoopInvocations, if_pos ha]
    rw [ackLoopInvocations_eq_nil now pid pkt post hpost]
    simp
  | cons p rest ih =>
    intro h
    have hp : p.id ≠ pid := h p (List.mem_cons_self p rest)
    simp only [List.cons_append, ackLoopInvocations, if_neg hp, List.nil_append]
    exact ih (fun x hx => h x (List.mem_cons_of_mem p hx))

/-- Erasing exactly at the position of the distinguished element. -/
lemma eraseIdx_append_length {α : Type} (a : α) (post : List α) :
    ∀ pre : List α, (pre ++ a :: post).eraseIdx pre.length = pre ++ post := by
  intro pre
  induction pre with
  | nil => rfl
  | cons p rest ih =>
    simp only [List.cons_append, List.length_cons, List.eraseIdx, List.append_eq]
    rw [ih]

/-- C1: counterexample — after two `emit_with_ack` calls whose random draws
both yield 5, the outstanding-acks list holds two simultaneously
outstanding acks with the same id 5: the source draws from `0..999` with no
collision check against still-outstanding acks and no retry, so the claimed
invariant fails. -/
theorem c1_duplicate_ack_ids :
    ¬ (List.map SAck.id (emitWithAck 5 0 10 0 (emitWithAck 5 0 10 0 []))).Nodup := by
  decide

/-- C1 (amended): every call to `emit_with_ack` appends exactly one new ack
whose id is the draw reduced into the half-open interval `[0, 999)` (999 is
never drawn); the draw is taken independently of the acks already
outstanding — no collision check, no retry — so duplicate ids among
simultaneously outstanding acks are possible. -/
theorem c1_emit_with_ack_amended (r now tmo cb : Nat) (acks : List SAck) :
    emitWithAck r now tmo cb acks = acks ++ [⟨genRange999 r, now, tmo, cb⟩]
      ∧ 0 ≤ genRange999 r ∧ genRange999 r < 999 := by
  refine ⟨rfl, ?_, ?_⟩
  · show (0 : Int) ≤ ((r % 999 : Nat) : Int)
    exact_mod_cast Nat.zero_le _
  · show ((r % 999 : Nat) : Int) < (999 : Int)
    exact_mod_cast Nat.mod_lt r (by decide)

/-- C2: counterexample — when the awaited frame's payload is not the PONG
probe (here the ASCII bytes of `"junk"`), the probe upgrade fails with
`InvalidPacket`, not with `IllegalWebsocketUpgrade` as the claim states. -/
theorem c2_upgrade_wrong_payload :
    (upgrade (some (asciiBytes "junk"))).result = .error .invalidPacket ∧
    (upgrade (some (asciiBytes "junk"))).result ≠ .error .illegalWebsocketUpgrade := by
  refine ⟨rfl, ?_⟩
  rw [(rfl : (upgrade (some (asciiBytes "junk"))).result
        = Except.error SError.invalidPacket)]
  intro h
  exact (by decide : SError.invalidPacket ≠ SError.illegalWebsocketUpgrade)
    (Except.error.inj h)

/-- C2 (amended): the probe upgrade sends a text frame with a PING packet
whose body is `"probe"`, awaits one inbound frame, and succeeds after
sending an empty-bodied UPGRADE packet exactly when the frame's payload is
the PONG packet with body `"probe"`; any other payload fails with
`InvalidPacket` (and no UPGRADE is sent), while `IllegalWebsocketUpgrade`
is returned exactly when no inbound frame arrives at all. -/
theorem c2_upgrade_amended (msgData : List Nat)
    (h : msgData ≠ encodePacket .Pong (asciiBytes "probe")) :
    upgrade none
      = ⟨[encodePacket .Ping (asciiBytes "probe")], .error .illegalWebsocketUpgrade⟩ ∧
    upgrade (some (encodePacket .Pong (asciiBytes "probe")))
      = ⟨[encodePacket .Ping (asciiBytes "probe"), encodePacket .Upgrade []], .ok ()⟩ ∧
    upgrade (some msgData)
      = ⟨[encodePacket .Ping (asciiBytes "probe")], .error .invalidPacket⟩ := by
  refine ⟨rfl, by simp [upgrade], ?_⟩
  have hstep : upgrade (some msgData)
      = if msgData ≠ encodePacket .Pong (asciiBytes "probe") then
          ⟨[encodePacket .Ping (asciiBytes "probe")], .error .invalidPacket⟩
        else
          ⟨[encodePacket .Ping (asciiBytes "probe"), encodePacket .Upgrade []],
            .ok ()⟩ := rfl
  rw [hstep, if_pos h]

/-- C2 (witness): the amended theorem applied to the concrete payload
`"2probe"`, which is not the PONG probe. -/
theorem c2_upgrade_amended_witness :
    upgrade (some (asciiBytes "2probe"))
      = ⟨[encodePacket .Ping (asciiBytes "probe")], .error .invalidPacket⟩ :=
  (c2_upgrade_amended (asciiBytes "2probe") (by decide)).2.2

/-- C3: an inbound packet whose namespace differs from the client's is
skipped: dispatching it invokes no user callback and no ack callback,
leaves the outstanding acks untouched and raises no error, for every parse
function and time; moreover the client's stream only ever yields packets of
the client's own namespace. -/
theorem c3_nsp_mismatch_skipped (parse : String → Option JValue) (now : Nat)
    (c : SClient) (pkt : SPacket) (h : pkt.nsp ≠ c.nsp) :
    handleSocketioPacket parse now c pkt = some ⟨[], [], c.outstandingAcks⟩ ∧
    ∀ inbound p, pollNextYield c inbound = some p → p.nsp = c.nsp := by
  constructor
  · unfold handleSocketioPacket
    rw [if_neg h]
  · intro inbound
    induction inbound with
    | nil => intro p hp; simp [pollNextYield] at hp
    | cons q rest ih =>
      intro p hp
      by_cases hq : q.nsp = c.nsp
      · simp only [pollNextYield, if_pos hq, Option.some.injEq] at hp
        rw [← hp]
        exact hq
      · simp only [pollNextYield, if_neg hq] at hp
        exact ih p hp

/-- C3 (witness): a packet for `/admin` dispatched against a client bound
to `/` produces no invocation and leaves the (empty) ack list unchanged. -/
theorem c3_nsp_mismatch_skipped_witness :
    handleSocketioPacket (fun _ => none) 0 ⟨"/", [], []⟩
      ⟨SPacketId.event, "/admin", none, none, 0, none⟩ = some ⟨[], [], []⟩ :=
  (c3_nsp_mismatch_skipped (fun _ => none) 0 ⟨"/", [], []⟩
    ⟨SPacketId.event, "/admin", none, none, 0, none⟩ (by decide)).1

/-- C4: on an inbound ACK or BINARY_ACK whose id matches exactly one
outstanding ack, the matching entry is removed from the outstanding list in
every case, and its callback is invoked — exactly when the elapsed time
`now - time_started` is below the ack's timeout — with the Text payload
from `data` when present followed by the first Binary attachment when
present (both, text first, when both are present; nothing when the timeout
has passed). -/
theorem c4_handle_ack (now : Nat) (pkt : SPacket) (pre post : List SAck)
    (a : SAck) (hid : pkt.id = some a.id)
    (hpre : ∀ b ∈ pre, b.id ≠ a.id) (hpost : ∀ b ∈ post, b.id ≠ a.id) :
    handleAck now pkt (pre ++ a :: post)
      = (pre ++ post,
         if now - a.timeStarted < a.timeout then ackCallbackPayloads pkt
         else []) := by
  unfold handleAck
  rw [hid]
  simp only [ackMatchIndices_unique a.id post a rfl hpost pre 0 hpre,
             ackLoopInvocations_unique now a.id pkt post a rfl hpost pre hpre,
             List.foldl, Nat.zero_add]
  rw [eraseIdx_append_length a post pre]

/-- C4 (witness): a single outstanding ack with id 7, resolved at time 5
(below its timeout 10) by an ACK carrying the text body `"pong"`: the
callback receives the text payload once and the entry is removed. -/
theorem c4_handle_ack_witness :
    handleAck 5 ⟨SPacketId.ack, "/", some 7, some "\"pong\"", 0, none⟩
      [⟨7, 0, 10, 3⟩]
      = ([], [SPayload.text "\"pong\""]) := by
  have h := c4_handle_ack 5 ⟨SPacketId.ack, "/", some 7, some "\"pong\"", 0, none⟩
    [] [] ⟨7, 0, 10, 3⟩ rfl (by simp) (by simp)
  rw [show ([] ++ (⟨7, 0, 10, 3⟩ : SAck) :: [] : List SAck)
        = [⟨7, 0, 10, 3⟩] from rfl] at h
  rw [h]
  decide

/-- C5: counterexample — with only a `Message` callback registered, an
inbound EVENT whose parsed data is the array `["custom","x"]` (length 2,
element 0 the string `"custom"`; no callback registered for `custom`)
invokes no callback at all: `Client::callback` only looks the named event
up in the table and the source never falls back to the `Message` callback
when that lookup fails. -/
theorem c5_no_message_fallback :
    handleEvent ⟨"/", [(SEvent.message, 0)], []⟩
        (some (.jarr [.jstr "custom", .jstr "x"])) = some [] ∧
    handleEvent ⟨"/", [(SEvent.message, 0)], []⟩
        (some (.jarr [.jstr "custom", .jstr "x"]))
      ≠ some [⟨SEvent.message, SPayload.text "\"x\""⟩] := by
  constructor
  · rfl
  · decide

/-- C5 (amended): for an inbound EVENT of the client's namespace whose data
parses to a JSON array: when the length is greater than 1, element 0 gives
the event name when it is a JSON string and the name falls back to
`"message"` otherwise, and the callback registered for that event — if one
is registered, with no fallback to the `Message` callback otherwise — is
invoked with element 1 serialized as a JSON string; when the length is 1,
element 0 (serialized) is delivered to the callback registered for
`Message`, if any. -/
theorem c5_handle_event_amended (c : SClient) (contents : List JValue) :
    (∀ v0 v1 rest, contents = v0 :: v1 :: rest →
       handleEvent c (some (.jarr contents))
         = some (c.callbackInvocations
             (SEvent.fromString
               (match v0 with | .jstr s => s | _ => "message"))
             (.text v1.serialize))) ∧
    (∀ v, contents = [v] →
       handleEvent c (some (.jarr contents))
         = some (c.callbackInvocations .message (.text v.serialize))) := by
  constructor
  · intro v0 v1 rest hc
    subst hc
    unfold handleEvent
    simp only [List.length_cons, List.get?]
    rw [if_pos (by omega : rest.length + 1 + 1 > 1)]
    cases v0 <;> rfl
  · intro v hc
    subst hc
    rfl

/-- C5 (witness): the amended theorem applied to a client with a callback
registered for the custom event `test` and the parsed data
`["test","hi"]`: that callback fires with the serialization `"\"hi\""` of
element 1. -/
theorem c5_handle_event_amended_witness :
    handleEvent ⟨"/", [(SEvent.custom "test", 1)], []⟩
        (some (.jarr [.jstr "test", .jstr "hi"]))
      = some [⟨SEvent.custom "test", SPayload.text "\"hi\""⟩] := by
  have h := (c5_handle_event_amended ⟨"/", [(SEvent.custom "test", 1)], []⟩
      [.jstr "test", .jstr "hi"]).1 (.jstr "test") (.jstr "hi") [] rfl
  rw [h]
  rfl

/-- C6: counterexample — on a CONNECT_ERROR for the client's namespace with
no data, the `Error` callback receives
`"Received an ConnectError frame: \"No error message provided\""`: the
prefix reads "an" (not "a" as the claim states) and the fallback body keeps
its surrounding double quotes (the source literal is
`"\"No error message provided\""`). -/
theorem c6_connect_error_strings :
    handleSocketioPacket (fun _ => none) 0 ⟨"/", [(SEvent.error, 0)], []⟩
        ⟨SPacketId.connectError, "/", none, none, 0, none⟩
      = some ⟨[⟨SEvent.error, SPayload.text
          "Received an ConnectError frame: \"No error message provided\""⟩],
          [], []⟩ ∧
    "Received an ConnectError frame: \"No error message provided\""
      ≠ "Received a ConnectError frame: No error message provided" := by
  constructor
  · rfl
  · decide

/-- C6 (amended): on every inbound CONNECT_ERROR packet for the client's
namespace, the `Error` callback (when one is registered) is fired with
`"Received an ConnectError frame: "` concatenated with the packet's data
body, the literal `"\"No error message provided\""` — double quotes
included — standing in for an absent body. -/
theorem c6_connect_error_amended (parse : String → Option JValue) (now : Nat)
    (c : SClient) (pkt : SPacket)
    (hnsp : pkt.nsp = c.nsp) (hty : pkt.packetType = SPacketId.connectError) :
    handleSocketioPacket parse now c pkt
      = some ⟨c.callbackInvocations .error
          (.text ("Received an ConnectError frame: "
            ++ pkt.data.getD "\"No error message provided\"")),
          [], c.outstandingAcks⟩ := by
  unfold handleSocketioPacket
  rw [if_pos hnsp, hty]

/-- C6 (witness): the amended theorem at a concrete CONNECT_ERROR packet
carrying the body `"boom"`, against a client with an `Error` callback. -/
theorem c6_connect_error_amended_witness :
    handleSocketioPacket (fun _ => none) 0 ⟨"/", [(SEvent.error, 2)], []⟩
        ⟨SPacketId.connectError, "/", none, some "\"boom\"", 0, none⟩
      = some ⟨[⟨SEvent.error,
          SPayload.text "Received an ConnectError frame: \"boom\""⟩], [], []⟩ := by
  have h := c6_connect_error_amended (fun _ => none) 0
    ⟨"/", [(SEvent.error, 2)], []⟩
    ⟨SPacketId.connectError, "/", none, some "\"boom\"", 0, none⟩ rfl rfl
  rw [h]
  rfl

/-- C7: the guard of `TransportClient::emit` (`src/transport.rs`) is
inverted — `emit` fails with `ActionBeforeOpen` exactly when the client IS
connected and passes the guard when it is not — while `EngineSocket::emit`
(`src/engineio/socket.rs`) rejects exactly the not-connected state as the
claim (and the error's own name) intends; the slip is the missing negation
on `self.connected.load(..)`. -/
theorem c7_transport_emit_inverted :
    transportClientEmitGuard true = .error .actionBeforeOpen ∧
    transportClientEmitGuard false = .ok () ∧
    engineSocketEmitGuard false = .error .actionBeforeOpen ∧
    engineSocketEmitGuard true = .ok () :=
  ⟨rfl, rfl, rfl, rfl⟩

/-- C8: every callback registration — the five Engine.IO registrations
`on_open`, `on_close`, `on_packet`, `on_data`, `on_error`, and the
socket.io event `on`-registration — fails with `IllegalActionAfterOpen`
when attempted after the client has connected, and succeeds (recording the
callback) before. -/
theorem c8_registration_after_open (s : EngineSocketState)
    (table : List (SEvent × Nat)) (e : SEvent) (cb : Nat) :
    (s.connected = true →
      regOnOpen s cb = .error .illegalActionAfterOpen ∧
      regOnClose s cb = .error .illegalActionAfterOpen ∧
      regOnPacket s cb = .error .illegalActionAfterOpen ∧
      regOnData s cb = .error .illegalActionAfterOpen ∧
      regOnError s cb = .error .illegalActionAfterOpen ∧
      socketOnRegister true table e cb = .error .illegalActionAfterOpen) ∧
    (s.connected = false →
      regOnOpen s cb = .ok { s with onOpen := some cb } ∧
      regOnClose s cb = .ok { s with onClose := some cb } ∧
      regOnPacket s cb = .ok { s with onPacket := some cb } ∧
      regOnData s cb = .ok { s with onData := some cb } ∧
      regOnError s cb = .ok { s with onError := some cb } ∧
      socketOnRegister false table e cb = .ok ((e, cb) :: table)) := by
  constructor
  · intro h
    simp [regOnOpen, regOnClose, regOnPacket, regOnData, regOnError,
          socketOnRegister, h]
  · intro h
    simp [regOnOpen, regOnClose, regOnPacket, regOnData, regOnError,
          socketOnRegister, h]

/-- C8 (witness): the theorem applied to a connected socket (registration
of `on_open` rejected) and to a fresh one (registration of `on_error`
recorded). -/
theorem c8_registration_after_open_witness :
    regOnOpen ⟨true, none, none, none, none, none⟩ 7
      = .error .illegalActionAfterOpen ∧
    regOnError ⟨false, none, none, none, none, none⟩ 7
      = .ok ⟨false, none, none, none, none, some 7⟩ :=
  ⟨((c8_registration_after_open ⟨true, none, none, none, none, none⟩ []
      SEvent.message 7).1 rfl).1,
   ((c8_registration_after_open ⟨false, none, none, none, none, none⟩ []
      SEvent.message 7).2 rfl).2.2.2.2.1⟩

/-- C9: `set_namespace` fails with `IllegalNamespace` — producing no
updated builder, so the namespace is unchanged — exactly when the string
does not start with the character `/`, and otherwise succeeds with the
builder's namespace set to that string. -/
theorem c9_set_namespace (b : BuilderState) (nsp : String) :
    (startsWithSlash nsp = false →
      setNamespace b nsp = .error (.illegalNamespace nsp)) ∧
    (startsWithSlash nsp = true →
      setNamespace b nsp = .ok { b with nsp := nsp }) := by
  constructor
  · intro h
    simp [setNamespace, h]
  · intro h
    simp [setNamespace, h]

/-- C9 (witness): the theorem applied to the strings `"admin"` (rejected)
and `"/admin"` (accepted). -/
theorem c9_set_namespace_witness :
    setNamespace ⟨"/"⟩ "admin" = .error (.illegalNamespace "admin") ∧
    setNamespace ⟨"/"⟩ "/admin" = .ok ⟨"/admin"⟩ :=
  ⟨(c9_set_namespace ⟨"/"⟩ "admin").1 (by decide),
   (c9_set_namespace ⟨"/"⟩ "/admin").2 (by decide)⟩

/-- C10: calling `open` on a transport client whose `connected` flag is set
returns `Ok(())` immediately: no HTTP request is issued, the `on_open`
callback does not fire, and the whole state — in particular the stored
address and connection data — is unchanged, whatever the address, URL
parse outcome and handshake response would have been. -/
theorem c10_open_idempotent (s : TransportClientState) (address : String)
    (urlOk : Bool) (response : String)
    (parsed : Option (Option HandshakeData)) (h : s.connected = true) :
    transportClientOpen s address urlOk response parsed
      = ⟨0, false, .ok (), s⟩ := by
  simp [transportClientOpen, h]

/-- C10 (witness): the theorem applied to a connected client with a stored
address and no connection data. -/
theorem c10_open_idempotent_witness :
    transportClientOpen ⟨true, some "http://a", none⟩ "http://b" true "resp"
        (some none)
      = ⟨0, false, .ok (), ⟨true, some "http://a", none⟩⟩ :=
  c10_open_idempotent ⟨true, some "http://a", none⟩ "http://b" true "resp"
    (some none) rfl

end SocketIOVerif
